import Mathlib

set_option linter.unusedVariables false

/-!
Verification of the MeetingMind OBS plugin (src/obs-plugin/src/meetingmind-plugin.cpp)
against its natural-language specification.

The plugin is a thin event-to-action mapper: it receives JSON meeting events over a
socket, looks up a fixed table from event type to host actions, and invokes host APIs
(scene switch, mute/unmute an audio source, start/stop recording).  We embed the
dispatcher, the host-control helpers, the socket-lifecycle callbacks, the config
load/save round trip, the reconnect logic and the capped activity log as pure Lean
functions, and prove the specified properties about them.

The host application (OBS) and the Qt toolkit are external to the repository; they are
modelled as explicit state (a `Host` record of scenes, sources and recording state, a
key-value config store, a set of open sockets) acted on by the embedded functions.
-/

namespace MeetingMind

/-! ## Scene and audio-source name constants (lines 64-74 of the plugin) -/

def SCENE_WELCOME : String := "Meeting - Welcome"
def SCENE_PRESENTATION : String := "Meeting - Presentation"
def SCENE_DISCUSSION : String := "Meeting - Discussion"
def SCENE_SCREEN_SHARE : String := "Meeting - Screen Share"
def SCENE_BREAK : String := "Meeting - Break"
def SCENE_ENDING : String := "Meeting - Ending"

def AUDIO_MICROPHONE : String := "Microphone"
def AUDIO_DESKTOP : String := "Desktop Audio"

/-! ## Configuration structure (struct meetingmind_config, lines 44-55) -/

/-- The plugin configuration struct.  C `int` fields are modelled as `Int`; the
C strings are modelled as `String`. -/
structure meetingmind_config where
  server_url : String
  server_port : Int
  api_key : String
  auto_scene_switching : Bool
  auto_recording : Bool
  audio_management : Bool
  meeting_notifications : Bool
  connection_timeout : Int
  meeting_id : String
  connected : Bool
  deriving DecidableEq, Repr

/-! ## JSON values (modelling Qt's QJsonValue / QJsonObject as used by the plugin) -/

/-- A JSON value.  Objects are association lists from field names to values. -/
inductive Json where
  | null
  | bool (b : Bool)
  | num (n : Int)
  | str (s : String)
  | arr (elems : List Json)
  | obj (fields : List (String × Json))

/-- Field access on a JSON object (QJsonObject operator[]): a missing field, or
indexing a non-object, yields the undefined/null value. -/
def Json.get (j : Json) (key : String) : Json :=
  match j with
  | .obj fields => (fields.lookup key).getD .null
  | _ => .null

/-- QJsonValue::toString: a non-string value converts to the empty string. -/
def Json.toStringVal : Json → String
  | .str s => s
  | _ => ""

/-- QJsonValue::toObject / QJsonDocument::object: a non-object converts to the
empty object. -/
def Json.toObjectVal : Json → Json
  | .obj fields => .obj fields
  | _ => .obj []

/-- Whether a JSON object has the given field. -/
def Json.hasField (j : Json) (key : String) : Bool :=
  match j with
  | .obj fields => (fields.lookup key).isSome
  | _ => false

/-! ## Host actions and the event dispatcher (handle_meeting_event, lines 546-603) -/

/-- A host-control call made by the dispatcher, in source order.  These are the four
helper functions the dispatcher can invoke. -/
inductive HostAction where
  | switch_to_scene (scene_name : String)
  | start_recording
  | stop_recording
  | set_source_mute (source_name : String) (muted : Bool)
  deriving DecidableEq, Repr

/-- Shallow embedding of handle_meeting_event: the ordered list of host-control calls
the function makes for a given event type under the configured feature toggles.
The `data` payload is received but never read by the dispatcher, exactly as in the
source.  The function is only reached with a live configuration (the source returns
early on a null plugin_config). -/
def handle_meeting_event (event_type : String) (data : Json)
    (cfg : meetingmind_config) : List HostAction :=
  if event_type = "meeting_started" then
    (if cfg.auto_scene_switching then [HostAction.switch_to_scene SCENE_WELCOME] else []) ++
    (if cfg.auto_recording then [HostAction.start_recording] else []) ++
    (if cfg.audio_management then [HostAction.set_source_mute AUDIO_MICROPHONE false] else [])
  else if event_type = "meeting_ended" then
    (if cfg.auto_scene_switching then [HostAction.switch_to_scene SCENE_ENDING] else []) ++
    (if cfg.auto_recording then [HostAction.stop_recording] else [])
  else if event_type = "presentation_started" then
    (if cfg.auto_scene_switching then [HostAction.switch_to_scene SCENE_PRESENTATION] else [])
  else if event_type = "screen_share_started" then
    (if cfg.auto_scene_switching then [HostAction.switch_to_scene SCENE_SCREEN_SHARE] else []) ++
    (if cfg.audio_management then [HostAction.set_source_mute AUDIO_DESKTOP false] else [])
  else if event_type = "screen_share_ended" then
    (if cfg.auto_scene_switching then [HostAction.switch_to_scene SCENE_DISCUSSION] else [])
  else if event_type = "break_started" then
    (if cfg.auto_scene_switching then [HostAction.switch_to_scene SCENE_BREAK] else []) ++
    (if cfg.audio_management then [HostAction.set_source_mute AUDIO_MICROPHONE true] else [])
  else if event_type = "break_ended" then
    (if cfg.auto_scene_switching then [HostAction.switch_to_scene SCENE_DISCUSSION] else []) ++
    (if cfg.audio_management then [HostAction.set_source_mute AUDIO_MICROPHONE false] else [])
  else
    []

/-- The fixed enumeration of recognized event types. -/
def event_types : List String :=
  ["meeting_started", "meeting_ended", "presentation_started", "screen_share_started",
   "screen_share_ended", "break_started", "break_ended"]

/-- The dispatch table of spec section 4.1, written from the spec's words: each row
gives an optional scene-column entry, an optional recording-column entry and an
optional audio-column entry; the ordered action list is the concatenation of the
columns, each present if and only if its gating toggle is enabled. -/
def spec_action_table (event_type : String) (cfg : meetingmind_config) : List HostAction :=
  let sceneCol : Option String :=
    if event_type = "meeting_started" then some SCENE_WELCOME
    else if event_type = "meeting_ended" then some SCENE_ENDING
    else if event_type = "presentation_started" then some SCENE_PRESENTATION
    else if event_type = "screen_share_started" then some SCENE_SCREEN_SHARE
    else if event_type = "screen_share_ended" then some SCENE_DISCUSSION
    else if event_type = "break_started" then some SCENE_BREAK
    else if event_type = "break_ended" then some SCENE_DISCUSSION
    else none
  let recCol : Option HostAction :=
    if event_type = "meeting_started" then some HostAction.start_recording
    else if event_type = "meeting_ended" then some HostAction.stop_recording
    else none
  let audioCol : Option HostAction :=
    if event_type = "meeting_started" then some (HostAction.set_source_mute AUDIO_MICROPHONE false)
    else if event_type = "screen_share_started" then
      some (HostAction.set_source_mute AUDIO_DESKTOP false)
    else if event_type = "break_started" then some (HostAction.set_source_mute AUDIO_MICROPHONE true)
    else if event_type = "break_ended" then some (HostAction.set_source_mute AUDIO_MICROPHONE false)
    else none
  (if cfg.auto_scene_switching then (sceneCol.map HostAction.switch_to_scene).toList else []) ++
  (if cfg.auto_recording then recCol.toList else []) ++
  (if cfg.audio_management then audioCol.toList else [])

/-- A configuration with every feature toggle enabled, used as a concrete test point. -/
def cfg_all_on : meetingmind_config :=
  { server_url := "localhost", server_port := 8080, api_key := "",
    auto_scene_switching := true, auto_recording := true, audio_management := true,
    meeting_notifications := true, connection_timeout := 10, meeting_id := "m1",
    connected := false }

/-- Helper: an event type outside the fixed enumeration falls through every branch of
the dispatcher and produces no actions. -/
theorem handle_unknown_eq_nil (event_type : String) (data : Json) (cfg : meetingmind_config)
    (h : event_type ∉ event_types) : handle_meeting_event event_type data cfg = [] := by
  simp only [event_types, List.mem_cons, List.mem_singleton, not_or] at h
  obtain ⟨h1, h2, h3, h4, h5, h6, h7, -⟩ := h
  simp [handle_meeting_event, h1, h2, h3, h4, h5, h6, h7]

/-- C1: for every event type in the fixed enumeration and every combination of the
three feature toggles, handle_meeting_event invokes exactly the ordered list of host
actions given by the table in spec section 4.1, each action present if and only if its
gating toggle is enabled. -/
theorem dispatch_table_matches_spec (event_type : String) (data : Json)
    (cfg : meetingmind_config) (h : event_type ∈ event_types) :
    handle_meeting_event event_type data cfg = spec_action_table event_type cfg := by
  obtain ⟨url, port, key, sw, rec, au, nt, ct, mid, cn⟩ := cfg
  fin_cases h <;>
    cases sw <;> cases rec <;> cases au <;> rfl

/-- Witness for C1 at a concrete event and configuration. -/
theorem dispatch_table_matches_spec_witness :
    "meeting_started" ∈ event_types ∧
      handle_meeting_event "meeting_started" Json.null cfg_all_on =
        spec_action_table "meeting_started" cfg_all_on :=
  ⟨by decide, dispatch_table_matches_spec "meeting_started" Json.null cfg_all_on (by decide)⟩

/-! ## Host state and the host-control helpers (lines 605-656) -/

/-- An actual host-API invocation (the OBS frontend calls the helpers can make). -/
inductive HostCall where
  | set_current_scene (scene_name : String)
  | recording_start
  | recording_stop
  | set_muted (source_name : String) (muted : Bool)
  deriving DecidableEq, Repr

/-- The host application's observable state: which scene names exist, the current
scene, the mute state of each existing audio source, whether recording is active,
the trace of host-API calls made so far, and the plugin's blog log lines. -/
structure Host where
  scenes : List String
  current_scene : Option String
  sources : List (String × Bool)
  recording_active : Bool
  host_calls : List HostCall
  log : List String
  deriving DecidableEq, Repr

/-- switch_to_scene (lines 605-616): look the scene up by name; on success switch to
it and log at info level, on failure only log a warning. -/
def switch_to_scene (scene_name : String) (h : Host) : Host :=
  if h.scenes.contains scene_name then
    { h with current_scene := some scene_name,
             host_calls := h.host_calls ++ [HostCall.set_current_scene scene_name],
             log := h.log ++ ["MeetingMind: Switched to scene " ++ scene_name] }
  else
    { h with log := h.log ++ ["MeetingMind: Scene " ++ scene_name ++ " not found"] }

/-- set_source_mute (lines 630-640): look the source up by name; on success set its
mute state and log, on failure do nothing at all. -/
def set_source_mute (source_name : String) (muted : Bool) (h : Host) : Host :=
  if (h.sources.lookup source_name).isSome then
    { h with sources := h.sources.map (fun p => if p.1 = source_name then (p.1, muted) else p),
             host_calls := h.host_calls ++ [HostCall.set_muted source_name muted],
             log := h.log ++ ["MeetingMind: Set source " ++ source_name ++ " mute"] }
  else
    h

/-- start_recording (lines 642-648): start only when recording is not already active. -/
def start_recording (h : Host) : Host :=
  if h.recording_active then h
  else
    { h with recording_active := true,
             host_calls := h.host_calls ++ [HostCall.recording_start],
             log := h.log ++ ["MeetingMind: Started recording"] }

/-- stop_recording (lines 650-656): stop only when recording is active. -/
def stop_recording (h : Host) : Host :=
  if h.recording_active then
    { h with recording_active := false,
             host_calls := h.host_calls ++ [HostCall.recording_stop],
             log := h.log ++ ["MeetingMind: Stopped recording"] }
  else h

/-- Execute one dispatcher action against the host. -/
def exec_action (a : HostAction) (h : Host) : Host :=
  match a with
  | .switch_to_scene s => switch_to_scene s h
  | .start_recording => start_recording h
  | .stop_recording => stop_recording h
  | .set_source_mute s m => set_source_mute s m h

/-- Execute a list of dispatcher actions in order. -/
def run_actions (acts : List HostAction) (h : Host) : Host :=
  acts.foldl (fun h a => exec_action a h) h

/-- Dispatch one meeting event: run every action of handle_meeting_event in order. -/
def dispatch_event (event_type : String) (data : Json) (cfg : meetingmind_config)
    (h : Host) : Host :=
  run_actions (handle_meeting_event event_type data cfg) h

/-- Whether an action's named scene or source resolves in the host (the lookup the
helper performs before touching host state).  Recording actions perform no lookup. -/
def action_resolves (a : HostAction) (h : Host) : Bool :=
  match a with
  | .switch_to_scene s => h.scenes.contains s
  | .set_source_mute s _ => (h.sources.lookup s).isSome
  | .start_recording => true
  | .stop_recording => true

/-- C2: an event type outside the fixed enumeration invokes zero host actions under
any toggle combination, and leaves the host completely unchanged (no error is
signalled: dispatch is a total function into host states). -/
theorem unknown_event_no_action (event_type : String) (data : Json)
    (cfg : meetingmind_config) (h : event_type ∉ event_types) :
    handle_meeting_event event_type data cfg = [] ∧
      ∀ host : Host, dispatch_event event_type data cfg host = host := by
  refine ⟨handle_unknown_eq_nil event_type data cfg h, fun host => ?_⟩
  simp [dispatch_event, handle_unknown_eq_nil event_type data cfg h, run_actions]

/-- Witness for C2 at a concrete unknown event type. -/
theorem unknown_event_no_action_witness :
    "participant_joined" ∉ event_types ∧
      (handle_meeting_event "participant_joined" Json.null cfg_all_on = [] ∧
        ∀ host : Host, dispatch_event "participant_joined" Json.null cfg_all_on host = host) :=
  ⟨by decide, unknown_event_no_action "participant_joined" Json.null cfg_all_on (by decide)⟩

/-- A concrete host in which the Welcome scene does not resolve but the microphone
source exists; used as a failure test point. -/
def host_missing_scene : Host :=
  { scenes := [], current_scene := none,
    sources := [(AUDIO_MICROPHONE, true)],
    recording_active := false, host_calls := [], log := [] }

/-- C3: within one event's action list, a host call whose named scene or source does
not resolve changes at most the log (nothing is surfaced to the caller as an error),
only appends to the log, and does not prevent any subsequent action of the same list
from being attempted. -/
theorem action_failure_independent (event_type : String) (data : Json)
    (cfg : meetingmind_config) (pre post : List HostAction) (a : HostAction) (h0 : Host)
    (hsplit : handle_meeting_event event_type data cfg = pre ++ a :: post)
    (hlen : 1 < (handle_meeting_event event_type data cfg).length)
    (hfail : action_resolves a (run_actions pre h0) = false) :
    (exec_action a (run_actions pre h0) =
        { run_actions pre h0 with log := (exec_action a (run_actions pre h0)).log }) ∧
      (run_actions pre h0).log <+: (exec_action a (run_actions pre h0)).log ∧
      run_actions (handle_meeting_event event_type data cfg) h0 =
        run_actions post (exec_action a (run_actions pre h0)) := by
  refine ⟨?_, ?_, ?_⟩
  · cases a with
    | switch_to_scene s =>
        simp only [action_resolves] at hfail
        have hm : s ∉ (run_actions pre h0).scenes := by simpa using hfail
        simp [exec_action, switch_to_scene, hm]
    | start_recording => simp [action_resolves] at hfail
    | stop_recording => simp [action_resolves] at hfail
    | set_source_mute s m =>
        simp only [action_resolves] at hfail
        simp [exec_action, set_source_mute, hfail]
  · cases a with
    | switch_to_scene s =>
        simp only [action_resolves] at hfail
        have hm : s ∉ (run_actions pre h0).scenes := by simpa using hfail
        simp [exec_action, switch_to_scene, hm]
    | start_recording => simp [action_resolves] at hfail
    | stop_recording => simp [action_resolves] at hfail
    | set_source_mute s m =>
        simp only [action_resolves] at hfail
        simp [exec_action, set_source_mute, hfail]
  · rw [hsplit]
    simp [run_actions, List.foldl_append]

/-- Witness for C3: meeting_started with all toggles on, on a host where the Welcome
scene is missing; the recording and microphone actions follow the failed switch. -/
theorem action_failure_independent_witness :
    (handle_meeting_event "meeting_started" Json.null cfg_all_on =
        [] ++ HostAction.switch_to_scene SCENE_WELCOME ::
          [HostAction.start_recording, HostAction.set_source_mute AUDIO_MICROPHONE false] ∧
      1 < (handle_meeting_event "meeting_started" Json.null cfg_all_on).length ∧
      action_resolves (HostAction.switch_to_scene SCENE_WELCOME)
        (run_actions [] host_missing_scene) = false) ∧
    (exec_action (HostAction.switch_to_scene SCENE_WELCOME) (run_actions [] host_missing_scene) =
        { run_actions [] host_missing_scene with
            log := (exec_action (HostAction.switch_to_scene SCENE_WELCOME)
              (run_actions [] host_missing_scene)).log } ∧
      (run_actions [] host_missing_scene).log <+:
        (exec_action (HostAction.switch_to_scene SCENE_WELCOME)
          (run_actions [] host_missing_scene)).log ∧
      run_actions (handle_meeting_event "meeting_started" Json.null cfg_all_on)
          host_missing_scene =
        run_actions [HostAction.start_recording, HostAction.set_source_mute AUDIO_MICROPHONE false]
          (exec_action (HostAction.switch_to_scene SCENE_WELCOME)
            (run_actions [] host_missing_scene))) :=
  ⟨⟨by decide, by decide, by decide⟩,
    action_failure_independent "meeting_started" Json.null cfg_all_on []
      [HostAction.start_recording, HostAction.set_source_mute AUDIO_MICROPHONE false]
      (HostAction.switch_to_scene SCENE_WELCOME) host_missing_scene
      (by decide) (by decide) (by decide)⟩

/-! ## WebSocket session: lifecycle callbacks (lines 353-396) -/

/-- The observable state of the widget's socket session: the connected flag of the
configuration, the text messages sent on the socket, and the widget's activity-log
entries (timestamps elided). -/
structure WsSession where
  connected : Bool
  sent : List Json
  widget_log : List String

/-- The subscribe message built by on_websocket_connected. -/
def subscribe_msg (meeting_id : String) : Json :=
  Json.obj [("type", Json.str "subscribe"), ("meeting_id", Json.str meeting_id)]

/-- on_websocket_connected (lines 353-373): set the connected flag, log, and, only
when the meeting-id field is nonempty, send one subscribe message and log again. -/
def on_websocket_connected (meeting_id : String) (s : WsSession) : WsSession :=
  let s1 : WsSession :=
    { s with connected := true,
             widget_log := s.widget_log ++ ["Connected to MeetingMind WebSocket"] }
  if meeting_id = "" then s1
  else
    { s1 with sent := s1.sent ++ [subscribe_msg meeting_id],
              widget_log := s1.widget_log ++ ["Subscribed to meeting: " ++ meeting_id] }

/-- on_websocket_disconnected (lines 375-383): clear the connected flag and log. -/
def on_websocket_disconnected (s : WsSession) : WsSession :=
  { s with connected := false,
           widget_log := s.widget_log ++ ["Disconnected from MeetingMind WebSocket"] }

/-- The JSON object a (possibly failed) QJsonDocument parse presents to the handler:
a malformed message yields a null document whose object() is empty, and a document
whose top level is not an object also presents the empty object. -/
def doc_object (doc : Option Json) : Json :=
  match doc with
  | some j => j.toObjectVal
  | none => Json.obj []

/-- The (event_type, event_data) pair on_websocket_message extracts from an inbound
message (lines 387-391): absent or non-string type decodes to the empty string,
absent or non-object data decodes to the empty object. -/
def decode_message (doc : Option Json) : String × Json :=
  ((doc_object doc).get "type" |>.toStringVal, (doc_object doc).get "data" |>.toObjectVal)

/-- on_websocket_message (lines 385-396): decode the message, log the event type, and
dispatch the event against the host. -/
def on_websocket_message (doc : Option Json) (cfg : meetingmind_config)
    (s : WsSession) (h : Host) : WsSession × Host :=
  let et := (decode_message doc).1
  let ed := (decode_message doc).2
  ({ s with widget_log := s.widget_log ++ ["Received event: " ++ et] },
   dispatch_event et ed cfg h)

/-- The session state right after load_config: the connected flag is cleared and
nothing has been sent or logged over the socket yet (line 486). -/
def init_session : WsSession :=
  { connected := false, sent := [], widget_log := [] }

/-- C4 counterexample: a successful socket open with an empty configured meeting id
sends no subscribe message at all, so "exactly one subscribe message on every
successful open" fails. -/
theorem subscribe_on_open_cex :
    (on_websocket_connected "" init_session).sent = [] := rfl

/-- C4 (amended): on every successful socket open, exactly one subscribe message
of shape type=subscribe, meeting_id=the configured id is appended to the sent
messages when the configured meeting id is nonempty, and none is sent when it is
empty. -/
theorem subscribe_on_open (meeting_id : String) (s : WsSession) :
    (on_websocket_connected meeting_id s).sent =
      s.sent ++ (if meeting_id = "" then [] else [subscribe_msg meeting_id]) := by
  unfold on_websocket_connected
  split <;> simp

/-! ## The connected flag over a socket-callback trace (C7) -/

/-- A socket lifecycle callback delivered by the host: opened, closed, or an inbound
text message (already parsed, `none` for malformed JSON). -/
inductive CbEvent where
  | opened
  | closed
  | message (doc : Option Json)

/-- One callback step of the widget: opened and closed run the lifecycle handlers,
message runs the message handler. -/
def ws_step (meeting_id : String) (cfg : meetingmind_config)
    (sh : WsSession × Host) (e : CbEvent) : WsSession × Host :=
  match e with
  | .opened => (on_websocket_connected meeting_id sh.1, sh.2)
  | .closed => (on_websocket_disconnected sh.1, sh.2)
  | .message doc => on_websocket_message doc cfg sh.1 sh.2

/-- Run a trace of socket callbacks from the post-load_config state. -/
def run_callbacks (meeting_id : String) (cfg : meetingmind_config) (h0 : Host)
    (t : List CbEvent) : WsSession × Host :=
  t.foldl (ws_step meeting_id cfg) (init_session, h0)

/-- The lifecycle bit of a callback: opened sets, closed clears, messages are
irrelevant to the connected flag. -/
def life_bit : CbEvent → Option Bool
  | .opened => some true
  | .closed => some false
  | .message _ => none

/-- C7: after any trace of socket callbacks from the post-load_config state, the
connected flag equals the last lifecycle bit of the trace (false when no lifecycle
callback has occurred): it is true exactly when an opened callback has occurred with
no closed callback after it, and is false at startup. -/
theorem connected_tracks_callbacks (meeting_id : String) (cfg : meetingmind_config)
    (h0 : Host) (t : List CbEvent) :
    (run_callbacks meeting_id cfg h0 t).1.connected =
      ((t.filterMap life_bit).getLast?).getD false := by
  induction t using List.reverseRecOn with
  | nil => rfl
  | append_singleton t e ih =>
      have hstep : run_callbacks meeting_id cfg h0 (t ++ [e]) =
          ws_step meeting_id cfg (run_callbacks meeting_id cfg h0 t) e := by
        simp [run_callbacks, List.foldl_append]
      rw [hstep]
      cases e with
      | opened =>
          simp [ws_step, on_websocket_connected, List.filterMap_append, life_bit]
          split <;> rfl
      | closed =>
          simp [ws_step, on_websocket_disconnected, List.filterMap_append, life_bit]
      | message doc =>
          simpa [ws_step, on_websocket_message, List.filterMap_append, life_bit] using ih

/-- C8 counterexample: the message whose object has a valid type field but no data
field decodes the missing data to the empty object, yet the dispatcher then invokes
three host actions (under the all-on configuration), not zero. -/
theorem missing_data_still_acts :
    Json.hasField (doc_object (some (Json.obj [("type", Json.str "meeting_started")]))) "data"
        = false ∧
      handle_meeting_event
          (decode_message (some (Json.obj [("type", Json.str "meeting_started")]))).1
          (decode_message (some (Json.obj [("type", Json.str "meeting_started")]))).2
          cfg_all_on ≠ [] := by
  constructor
  · rfl
  · decide

/-- C8 (amended): message handling never fails: when the inbound message is malformed
JSON or its type field is absent or not a string, the decoded event type is the empty
string, the dispatcher invokes zero host actions and the host is unchanged; and a
missing data field always decodes to the empty payload object (even when a valid
type field is present). -/
theorem malformed_message_no_action :
    (∀ (doc : Option Json) (cfg : meetingmind_config) (host : Host),
        (match (doc_object doc).get "type" with
          | Json.str _ => False
          | _ => True) →
        (decode_message doc).1 = "" ∧
          handle_meeting_event (decode_message doc).1 (decode_message doc).2 cfg = [] ∧
          dispatch_event (decode_message doc).1 (decode_message doc).2 cfg host = host) ∧
      ∀ doc : Option Json, Json.hasField (doc_object doc) "data" = false →
        (decode_message doc).2 = Json.obj [] := by
  constructor
  · intro doc cfg host hty
    have het : (decode_message doc).1 = "" := by
      unfold decode_message
      cases hjt : (doc_object doc).get "type" <;> simp_all [Json.toStringVal]
    have hnot : (decode_message doc).1 ∉ event_types := by
      rw [het]; decide
    refine ⟨het, handle_unknown_eq_nil _ _ _ hnot, ?_⟩
    simp [dispatch_event, handle_unknown_eq_nil _ _ _ hnot, run_actions]
  · intro doc hnd
    unfold decode_message
    cases hdoc : doc_object doc with
    | obj fields =>
        have hnd2 : (fields.lookup "data").isSome = false := by
          rw [hdoc] at hnd
          exact hnd
        have hl : (fields.lookup "data") = none := by
          cases h : fields.lookup "data" with
          | none => rfl
          | some v => rw [h] at hnd2; simp at hnd2
        simp [Json.get, hl, Json.toObjectVal]
    | null => rfl
    | bool b => rfl
    | num n => rfl
    | str s => rfl
    | arr elems => rfl

/-- Witness for the amended C8 at the malformed (unparseable) message. -/
theorem malformed_message_no_action_witness :
    ((decode_message none).1 = "" ∧
        handle_meeting_event (decode_message none).1 (decode_message none).2 cfg_all_on = [] ∧
        dispatch_event (decode_message none).1 (decode_message none).2 cfg_all_on
          host_missing_scene = host_missing_scene) ∧
      (decode_message none).2 = Json.obj [] :=
  ⟨malformed_message_no_action.1 none cfg_all_on host_missing_scene trivial,
   malformed_message_no_action.2 none rfl⟩

/-! ## Configuration persistence (load_config lines 451-489, save_config lines 491-513)

The OBS config-file API (config_set_string and friends) is external to the
repository; the spec treats config-file persistence as a black box.  It is modelled
as a typed key-value store keyed by (section, key). -/

/-- A value held in the config store. -/
inductive CVal where
  | s (v : String)
  | i (v : Int)
  | b (v : Bool)
  deriving DecidableEq, Repr

/-- The config store: newest binding first; lookups take the newest binding. -/
abbrev ConfigStore := List ((String × String) × CVal)

/-- Find the newest binding for (section, key). -/
def config_find (st : ConfigStore) (sec key : String) : Option CVal :=
  match st with
  | [] => none
  | ((s0, k0), v) :: rest =>
      if s0 = sec ∧ k0 = key then some v else config_find rest sec key

/-- Bind (section, key) to a value (config_set_string / config_set_int /
config_set_bool). -/
def config_set (st : ConfigStore) (sec key : String) (v : CVal) : ConfigStore :=
  ((sec, key), v) :: st

/-- config_get_string: the stored string, or the empty string when absent. -/
def config_get_string (st : ConfigStore) (sec key : String) : String :=
  match config_find st sec key with
  | some (.s v) => v
  | _ => ""

/-- config_get_int: the stored integer (an int64), or 0 when absent. -/
def config_get_int (st : ConfigStore) (sec key : String) : Int :=
  match config_find st sec key with
  | some (.i v) => v
  | _ => 0

/-- config_get_bool: the stored boolean, or false when absent. -/
def config_get_bool (st : ConfigStore) (sec key : String) : Bool :=
  match config_find st sec key with
  | some (.b v) => v
  | _ => false

/-- The C cast (int) applied to the int64 config_get_int returns: wrap into the
32-bit signed range. -/
def c_int_cast (v : Int) : Int := (v + 2 ^ 31) % 2 ^ 32 - 2 ^ 31

/-- save_config (lines 491-513): write every configuration field into a fresh config
object for the plugin's config path, in source order. -/
def save_config (cfg : meetingmind_config) : ConfigStore :=
  let st0 : ConfigStore := []
  let st1 := config_set st0 "connection" "server_url" (CVal.s cfg.server_url)
  let st2 := config_set st1 "connection" "server_port" (CVal.i cfg.server_port)
  let st3 := config_set st2 "connection" "api_key" (CVal.s cfg.api_key)
  let st4 := config_set st3 "connection" "meeting_id" (CVal.s cfg.meeting_id)
  let st5 := config_set st4 "features" "auto_scene_switching" (CVal.b cfg.auto_scene_switching)
  let st6 := config_set st5 "features" "auto_recording" (CVal.b cfg.auto_recording)
  let st7 := config_set st6 "features" "audio_management" (CVal.b cfg.audio_management)
  let st8 := config_set st7 "features" "meeting_notifications" (CVal.b cfg.meeting_notifications)
  config_set st8 "advanced" "connection_timeout" (CVal.i cfg.connection_timeout)

/-- load_config (lines 451-489): when the config file exists, read every field back
(ints through the C int cast); otherwise install the defaults.  In both cases the
connected flag ends up false. -/
def load_config (file : Option ConfigStore) : meetingmind_config :=
  match file with
  | some c =>
      { server_url := config_get_string c "connection" "server_url",
        server_port := c_int_cast (config_get_int c "connection" "server_port"),
        api_key := config_get_string c "connection" "api_key",
        meeting_id := config_get_string c "connection" "meeting_id",
        auto_scene_switching := config_get_bool c "features" "auto_scene_switching",
        auto_recording := config_get_bool c "features" "auto_recording",
        audio_management := config_get_bool c "features" "audio_management",
        meeting_notifications := config_get_bool c "features" "meeting_notifications",
        connection_timeout := c_int_cast (config_get_int c "advanced" "connection_timeout"),
        connected := false }
  | none =>
      { server_url := "localhost", server_port := 8080, api_key := "", meeting_id := "",
        auto_scene_switching := true, auto_recording := true, audio_management := true,
        meeting_notifications := true, connection_timeout := 10, connected := false }

/-- The C int cast is the identity on values already in the 32-bit signed range. -/
theorem c_int_cast_eq_self (v : Int) (hlo : -(2 ^ 31) ≤ v) (hhi : v < 2 ^ 31) :
    c_int_cast v = v := by
  unfold c_int_cast
  omega

/-- C5: saving the configuration and then reloading it reproduces every field
byte-for-byte (strings) and value-for-value (booleans and integers); only the
transient connected flag is reset to false by loading.  The two integer fields are
C ints, hence within the 32-bit signed range. -/
theorem config_round_trip (cfg : meetingmind_config)
    (hp1 : -(2 ^ 31) ≤ cfg.server_port) (hp2 : cfg.server_port < 2 ^ 31)
    (ht1 : -(2 ^ 31) ≤ cfg.connection_timeout) (ht2 : cfg.connection_timeout < 2 ^ 31) :
    load_config (some (save_config cfg)) = { cfg with connected := false } := by
  obtain ⟨url, port, key, sw, rec, au, nt, ct, mid, cn⟩ := cfg
  have e1 : c_int_cast port = port := c_int_cast_eq_self port hp1 hp2
  have e2 : c_int_cast ct = ct := c_int_cast_eq_self ct ht1 ht2
  show meetingmind_config.mk url (c_int_cast port) key sw rec au nt (c_int_cast ct) mid false = _
  rw [e1, e2]

/-- Witness for C5 at a concrete configuration. -/
theorem config_round_trip_witness :
    (-(2 ^ 31) ≤ cfg_all_on.server_port ∧ cfg_all_on.server_port < 2 ^ 31 ∧
        -(2 ^ 31) ≤ cfg_all_on.connection_timeout ∧ cfg_all_on.connection_timeout < 2 ^ 31) ∧
      load_config (some (save_config cfg_all_on)) = { cfg_all_on with connected := false } :=
  ⟨⟨by decide, by decide, by decide, by decide⟩,
    config_round_trip cfg_all_on (by decide) (by decide) (by decide) (by decide)⟩

/-! ## Reconnection (connect_to_server, lines 515-537)

The Qt socket objects are external; the world is modelled as the multiset of open
socket objects plus a fresh-id counter, and the plugin holds at most the one socket
pointer it stores in its global. -/

/-- The world of live socket objects and the plugin's socket pointer. -/
structure ConnState where
  websocket : Option Nat
  open_sockets : List Nat
  next_id : Nat
  deriving DecidableEq, Repr

/-- connect_to_server (lines 515-537): when a prior socket object exists, close and
delete it; then create one new socket and open it.  (The function is only reached
with a live configuration; the configured URL and API key shape the request, not the
socket lifecycle.) -/
def connect_to_server (st : ConnState) : ConnState :=
  let torn : ConnState :=
    match st.websocket with
    | some w => { st with websocket := none, open_sockets := st.open_sockets.erase w }
    | none => st
  { websocket := some torn.next_id,
    open_sockets := torn.open_sockets ++ [torn.next_id],
    next_id := torn.next_id + 1 }

/-- C6: invoking connect while one connection is live tears down exactly that prior
connection and establishes exactly one new one: afterwards the old socket is gone,
the plugin points at the single new socket, and exactly one live connection exists. -/
theorem reconnect_single_live (w : Nat) (st : ConnState)
    (hws : st.websocket = some w)
    (hopen : st.open_sockets = [w])
    (hfresh : w < st.next_id) :
    (connect_to_server st).open_sockets = [st.next_id] ∧
      w ∉ (connect_to_server st).open_sockets ∧
      (connect_to_server st).websocket = some st.next_id ∧
      (connect_to_server st).open_sockets.length = 1 := by
  obtain ⟨ws, osck, nid⟩ := st
  obtain rfl : ws = some w := hws
  obtain rfl : osck = [w] := hopen
  have hf : w < nid := hfresh
  refine ⟨?_, ?_, rfl, ?_⟩
  · show ([w].erase w) ++ [nid] = [nid]
    simp
  · show w ∉ ([w].erase w) ++ [nid]
    simp only [List.erase_cons_head, List.nil_append, List.mem_singleton]
    omega
  · show (([w].erase w) ++ [nid]).length = 1
    simp

/-- Witness for C6 at a concrete connection state. -/
theorem reconnect_single_live_witness :
    (({ websocket := some 0, open_sockets := [0], next_id := 1 } : ConnState).websocket
          = some 0 ∧
        ({ websocket := some 0, open_sockets := [0], next_id := 1 } : ConnState).open_sockets
          = [0] ∧
        0 < ({ websocket := some 0, open_sockets := [0], next_id := 1 } : ConnState).next_id) ∧
      ((connect_to_server { websocket := some 0, open_sockets := [0], next_id := 1 }).open_sockets
          = [1] ∧
        0 ∉ (connect_to_server
            { websocket := some 0, open_sockets := [0], next_id := 1 }).open_sockets ∧
        (connect_to_server { websocket := some 0, open_sockets := [0], next_id := 1 }).websocket
          = some 1 ∧
        (connect_to_server
            { websocket := some 0, open_sockets := [0], next_id := 1 }).open_sockets.length = 1) :=
  ⟨⟨rfl, rfl, by decide⟩,
    reconnect_single_live 0 { websocket := some 0, open_sockets := [0], next_id := 1 }
      rfl rfl (by decide)⟩

/-! ## The capped activity log (log_message, lines 427-447) -/

/-- log_message: append the new entry as a line, then, when the line count exceeds
100, remove the surplus oldest lines from the top. -/
def log_message (log : List String) (entry : String) : List String :=
  let l := log ++ [entry]
  if 100 < l.length then l.drop (l.length - 100) else l

/-- C9: after every call to log_message, whatever the prior log contents, the log has
at most 100 lines (exactly min (n+1) 100 of them), and what remains is a suffix of
the appended log, i.e. the surplus was removed from the top only. -/
theorem log_message_capped (log : List String) (entry : String) :
    (log_message log entry).length ≤ 100 ∧
      (log_message log entry).length = min (log.length + 1) 100 ∧
      log_message log entry <:+ log ++ [entry] := by
  unfold log_message
  by_cases h : 100 < (log ++ [entry]).length
  · rw [if_pos h]
    refine ⟨?_, ?_, List.drop_suffix _ _⟩ <;>
      (simp only [List.length_drop, List.length_append, List.length_singleton] at h ⊢; omega)
  · rw [if_neg h]
    simp only [List.length_append, List.length_singleton] at h ⊢
    exact ⟨by omega, by omega, List.suffix_refl _⟩

/-! ## Recording idempotence (C10): helper lemmas about the recording counters -/


/-- Executing an action other than start_recording leaves the number of
recording-start host calls unchanged. -/
theorem count_start_exec_ne (a : HostAction) (h : Host)
    (hne : a ≠ HostAction.start_recording) :
    ((exec_action a h).host_calls.count HostCall.recording_start) =
      h.host_calls.count HostCall.recording_start := by
  cases a with
  | switch_to_scene s =>
      show ((switch_to_scene s h).host_calls.count HostCall.recording_start) = _
      unfold switch_to_scene
      split <;> simp
  | start_recording => exact absurd rfl hne
  | stop_recording =>
      show ((stop_recording h).host_calls.count HostCall.recording_start) = _
      unfold stop_recording
      split <;> simp
  | set_source_mute s m =>
      show ((set_source_mute s m h).host_calls.count HostCall.recording_start) = _
      unfold set_source_mute
      split <;> simp

/-- Executing an action other than stop_recording leaves the number of
recording-stop host calls unchanged. -/
theorem count_stop_exec_ne (a : HostAction) (h : Host)
    (hne : a ≠ HostAction.stop_recording) :
    ((exec_action a h).host_calls.count HostCall.recording_stop) =
      h.host_calls.count HostCall.recording_stop := by
  cases a with
  | switch_to_scene s =>
      show ((switch_to_scene s h).host_calls.count HostCall.recording_stop) = _
      unfold switch_to_scene
      split <;> simp
  | stop_recording => exact absurd rfl hne
  | start_recording =>
      show ((start_recording h).host_calls.count HostCall.recording_stop) = _
      unfold start_recording
      split <;> simp
  | set_source_mute s m =>
      show ((set_source_mute s m h).host_calls.count HostCall.recording_stop) = _
      unfold set_source_mute
      split <;> simp

/-- An action other than the recording pair never changes the recording-active
flag. -/
theorem recording_active_exec_other (a : HostAction) (h : Host)
    (h1 : a ≠ HostAction.start_recording) (h2 : a ≠ HostAction.stop_recording) :
    (exec_action a h).recording_active = h.recording_active := by
  cases a with
  | switch_to_scene s =>
      show (switch_to_scene s h).recording_active = _
      unfold switch_to_scene
      split <;> rfl
  | start_recording => exact absurd rfl h1
  | stop_recording => exact absurd rfl h2
  | set_source_mute s m =>
      show (set_source_mute s m h).recording_active = _
      unfold set_source_mute
      split <;> rfl

/-- Executing start_recording adds at most one recording-start call, leaves
recording active, and is a no-op when recording is already active. -/
theorem exec_start_facts (h : Host) :
    ((exec_action HostAction.start_recording h).host_calls.count HostCall.recording_start ≤
        h.host_calls.count HostCall.recording_start + 1) ∧
      (exec_action HostAction.start_recording h).recording_active = true ∧
      (h.recording_active = true → exec_action HostAction.start_recording h = h) := by
  show ((start_recording h).host_calls.count HostCall.recording_start ≤
      h.host_calls.count HostCall.recording_start + 1) ∧
    (start_recording h).recording_active = true ∧
    (h.recording_active = true → start_recording h = h)
  unfold start_recording
  by_cases hr : h.recording_active
  · rw [if_pos hr]
    exact ⟨Nat.le_succ _, hr, fun _ => rfl⟩
  · rw [if_neg hr]
    refine ⟨?_, rfl, fun hc => absurd hc hr⟩
    simp [List.count_append]

/-- Executing stop_recording adds at most one recording-stop call, leaves recording
inactive, and is a no-op when recording is not active. -/
theorem exec_stop_facts (h : Host) :
    ((exec_action HostAction.stop_recording h).host_calls.count HostCall.recording_stop ≤
        h.host_calls.count HostCall.recording_stop + 1) ∧
      (exec_action HostAction.stop_recording h).recording_active = false ∧
      (h.recording_active = false → exec_action HostAction.stop_recording h = h) := by
  show ((stop_recording h).host_calls.count HostCall.recording_stop ≤
      h.host_calls.count HostCall.recording_stop + 1) ∧
    (stop_recording h).recording_active = false ∧
    (h.recording_active = false → stop_recording h = h)
  unfold stop_recording
  by_cases hr : h.recording_active
  · rw [if_pos hr]
    refine ⟨?_, rfl, fun hc => by rw [hc] at hr; exact absurd hr (by simp)⟩
    simp [List.count_append]
  · rw [if_neg hr]
    refine ⟨Nat.le_succ _, ?_, fun _ => rfl⟩
    simp only [Bool.not_eq_true] at hr
    exact hr

/-- Running a list of actions is running the tail after the head. -/
theorem run_actions_cons (a : HostAction) (rest : List HostAction) (h : Host) :
    run_actions (a :: rest) h = run_actions rest (exec_action a h) := by
  rw [run_actions, run_actions, List.foldl_cons]

/-- Over a list of actions containing no stop_recording, when recording is already
active nothing is started again: the recording-start count is unchanged and recording
stays active. -/
theorem run_actions_active_no_restart (acts : List HostAction) (h : Host)
    (hno : HostAction.stop_recording ∉ acts) (hact : h.recording_active = true) :
    ((run_actions acts h).host_calls.count HostCall.recording_start =
        h.host_calls.count HostCall.recording_start) ∧
      (run_actions acts h).recording_active = true := by
  induction acts generalizing h with
  | nil => exact ⟨rfl, hact⟩
  | cons a rest ih =>
      have hna : a ≠ HostAction.stop_recording := fun he => hno (he ▸ List.mem_cons_self a rest)
      have hnr : HostAction.stop_recording ∉ rest := fun hm => hno (List.mem_cons_of_mem a hm)
      have hstep : (exec_action a h).recording_active = true := by
        by_cases hs : a = HostAction.start_recording
        · rw [hs]; exact (exec_start_facts h).2.1
        · rw [recording_active_exec_other a h hs hna]; exact hact
      have hcount : (exec_action a h).host_calls.count HostCall.recording_start =
          h.host_calls.count HostCall.recording_start := by
        by_cases hs : a = HostAction.start_recording
        · rw [hs, (exec_start_facts h).2.2 hact]
        · exact count_start_exec_ne a h hs
      have hih := ih (exec_action a h) hnr hstep
      rw [run_actions_cons]
      exact ⟨hih.1.trans hcount, hih.2⟩

/-- Over a list of actions containing no start_recording, when recording is already
inactive nothing is stopped again. -/
theorem run_actions_inactive_no_restop (acts : List HostAction) (h : Host)
    (hno : HostAction.start_recording ∉ acts) (hact : h.recording_active = false) :
    ((run_actions acts h).host_calls.count HostCall.recording_stop =
        h.host_calls.count HostCall.recording_stop) ∧
      (run_actions acts h).recording_active = false := by
  induction acts generalizing h with
  | nil => exact ⟨rfl, hact⟩
  | cons a rest ih =>
      have hna : a ≠ HostAction.start_recording := fun he => hno (he ▸ List.mem_cons_self a rest)
      have hnr : HostAction.start_recording ∉ rest := fun hm => hno (List.mem_cons_of_mem a hm)
      have hstep : (exec_action a h).recording_active = false := by
        by_cases hs : a = HostAction.stop_recording
        · rw [hs]; exact (exec_stop_facts h).2.1
        · rw [recording_active_exec_other a h hna hs]; exact hact
      have hcount : (exec_action a h).host_calls.count HostCall.recording_stop =
          h.host_calls.count HostCall.recording_stop := by
        by_cases hs : a = HostAction.stop_recording
        · rw [hs, (exec_stop_facts h).2.2 hact]
        · exact count_stop_exec_ne a h hs
      have hih := ih (exec_action a h) hnr hstep
      rw [run_actions_cons]
      exact ⟨hih.1.trans hcount, hih.2⟩

/-- Over any list of actions, the recording-start count grows by at most the number
of start_recording actions in the list. -/
theorem run_actions_count_start_le (acts : List HostAction) (h : Host) :
    (run_actions acts h).host_calls.count HostCall.recording_start ≤
      h.host_calls.count HostCall.recording_start +
        acts.count HostAction.start_recording := by
  induction acts generalizing h with
  | nil => simp [run_actions]
  | cons a rest ih =>
      rw [run_actions_cons]
      have hrest := ih (exec_action a h)
      by_cases hs : a = HostAction.start_recording
      · subst hs
        have h1 := (exec_start_facts h).1
        have h2 : (HostAction.start_recording :: rest).count HostAction.start_recording =
            rest.count HostAction.start_recording + 1 := List.count_cons_self _ _
        omega
      · have h1 := count_start_exec_ne a h hs
        have h2 : (a :: rest).count HostAction.start_recording =
            rest.count HostAction.start_recording :=
          List.count_cons_of_ne (fun he => hs he.symm) _
        omega

/-- Over any list of actions, the recording-stop count grows by at most the number
of stop_recording actions in the list. -/
theorem run_actions_count_stop_le (acts : List HostAction) (h : Host) :
    (run_actions acts h).host_calls.count HostCall.recording_stop ≤
      h.host_calls.count HostCall.recording_stop +
        acts.count HostAction.stop_recording := by
  induction acts generalizing h with
  | nil => simp [run_actions]
  | cons a rest ih =>
      rw [run_actions_cons]
      have hrest := ih (exec_action a h)
      by_cases hs : a = HostAction.stop_recording
      · subst hs
        have h1 := (exec_stop_facts h).1
        have h2 : (HostAction.stop_recording :: rest).count HostAction.stop_recording =
            rest.count HostAction.stop_recording + 1 := List.count_cons_self _ _
        omega
      · have h1 := count_stop_exec_ne a h hs
        have h2 : (a :: rest).count HostAction.stop_recording =
            rest.count HostAction.stop_recording :=
          List.count_cons_of_ne (fun he => hs he.symm) _
        omega

/-- Over a list of actions with no stop_recording but containing start_recording,
recording ends active. -/
theorem run_actions_ends_active (acts : List HostAction) (h : Host)
    (hno : HostAction.stop_recording ∉ acts) (hin : HostAction.start_recording ∈ acts) :
    (run_actions acts h).recording_active = true := by
  induction acts generalizing h with
  | nil => simp at hin
  | cons a rest ih =>
      have hnr : HostAction.stop_recording ∉ rest := fun hm => hno (List.mem_cons_of_mem a hm)
      rw [run_actions_cons]
      by_cases hs : a = HostAction.start_recording
      · have hact : (exec_action a h).recording_active = true := by
          rw [hs]; exact (exec_start_facts h).2.1
        by_cases hin2 : HostAction.start_recording ∈ rest
        · exact ih (exec_action a h) hnr hin2
        · exact (run_actions_active_no_restart rest (exec_action a h) hnr hact).2
      · have hin3 : HostAction.start_recording ∈ rest := by
          cases List.mem_cons.mp hin with
          | inl he => exact absurd he.symm hs
          | inr hm => exact hm
        exact ih (exec_action a h) hnr hin3

/-- Over a list of actions with no start_recording but containing stop_recording,
recording ends inactive. -/
theorem run_actions_ends_inactive (acts : List HostAction) (h : Host)
    (hno : HostAction.start_recording ∉ acts) (hin : HostAction.stop_recording ∈ acts) :
    (run_actions acts h).recording_active = false := by
  induction acts generalizing h with
  | nil => simp at hin
  | cons a rest ih =>
      have hnr : HostAction.start_recording ∉ rest := fun hm => hno (List.mem_cons_of_mem a hm)
      rw [run_actions_cons]
      by_cases hs : a = HostAction.stop_recording
      · have hact : (exec_action a h).recording_active = false := by
          rw [hs]; exact (exec_stop_facts h).2.1
        by_cases hin2 : HostAction.stop_recording ∈ rest
        · exact ih (exec_action a h) hnr hin2
        · exact (run_actions_inactive_no_restop rest (exec_action a h) hnr hact).2
      · have hin3 : HostAction.stop_recording ∈ rest := by
          cases List.mem_cons.mp hin with
          | inl he => exact absurd he.symm hs
          | inr hm => exact hm
        exact ih (exec_action a h) hnr hin3

/-- Running a list of actions twice in a row from any host issues at most one
recording-start host call in total, provided the list stops nothing and starts at
most once. -/
theorem twice_count_start_le (L : List HostAction) (h : Host)
    (hnostop : HostAction.stop_recording ∉ L)
    (hle : L.count HostAction.start_recording ≤ 1) :
    (run_actions L (run_actions L h)).host_calls.count HostCall.recording_start ≤
      h.host_calls.count HostCall.recording_start + 1 := by
  by_cases hin : HostAction.start_recording ∈ L
  · have h1le := run_actions_count_start_le L h
    have hact := run_actions_ends_active L h hnostop hin
    have h2 := run_actions_active_no_restart L (run_actions L h) hnostop hact
    omega
  · have hc0 : L.count HostAction.start_recording = 0 := List.count_eq_zero.mpr hin
    have h1le := run_actions_count_start_le L h
    have h2le := run_actions_count_start_le L (run_actions L h)
    omega

/-- Running a list of actions twice in a row from any host issues at most one
recording-stop host call in total, provided the list starts nothing and stops at
most once. -/
theorem twice_count_stop_le (L : List HostAction) (h : Host)
    (hnostart : HostAction.start_recording ∉ L)
    (hle : L.count HostAction.stop_recording ≤ 1) :
    (run_actions L (run_actions L h)).host_calls.count HostCall.recording_stop ≤
      h.host_calls.count HostCall.recording_stop + 1 := by
  by_cases hin : HostAction.stop_recording ∈ L
  · have h1le := run_actions_count_stop_le L h
    have hact := run_actions_ends_inactive L h hnostart hin
    have h2 := run_actions_inactive_no_restop L (run_actions L h) hnostart hact
    omega
  · have hc0 : L.count HostAction.stop_recording = 0 := List.count_eq_zero.mpr hin
    have h1le := run_actions_count_stop_le L h
    have h2le := run_actions_count_stop_le L (run_actions L h)
    omega

/-- A concrete host with recording active, used as a test point. -/
def host_recording : Host :=
  { scenes := [], current_scene := none, sources := [],
    recording_active := true, host_calls := [], log := [] }

/-- C10: start_recording is a no-op when recording is already active and
stop_recording is a no-op when recording is not active; consequently dispatching the
same meeting_started (resp. meeting_ended) event twice in a row issues the host
recording-start (resp. recording-stop) call at most once, under every configuration
and from every host state. -/
theorem recording_idempotent :
    (∀ h : Host, h.recording_active = true →
        exec_action HostAction.start_recording h = h) ∧
      (∀ h : Host, h.recording_active = false →
        exec_action HostAction.stop_recording h = h) ∧
      (∀ (d1 d2 : Json) (cfg : meetingmind_config) (h : Host),
        (dispatch_event "meeting_started" d2 cfg
            (dispatch_event "meeting_started" d1 cfg h)).host_calls.count
              HostCall.recording_start ≤
          h.host_calls.count HostCall.recording_start + 1) ∧
      ∀ (d1 d2 : Json) (cfg : meetingmind_config) (h : Host),
        (dispatch_event "meeting_ended" d2 cfg
            (dispatch_event "meeting_ended" d1 cfg h)).host_calls.count
              HostCall.recording_stop ≤
          h.host_calls.count HostCall.recording_stop + 1 := by
  refine ⟨fun h => (exec_start_facts h).2.2, fun h => (exec_stop_facts h).2.2, ?_, ?_⟩
  · intro d1 d2 cfg h
    show (run_actions (handle_meeting_event "meeting_started" d2 cfg)
        (run_actions (handle_meeting_event "meeting_started" d1 cfg) h)).host_calls.count
          HostCall.recording_start ≤ h.host_calls.count HostCall.recording_start + 1
    have hdd : handle_meeting_event "meeting_started" d2 cfg =
        handle_meeting_event "meeting_started" d1 cfg := rfl
    rw [hdd]
    apply twice_count_start_le
    · obtain ⟨u, p, k, sw, rec, au, nt, ct, mi, cn⟩ := cfg
      cases sw <;> cases rec <;> cases au <;> simp [handle_meeting_event]
    · obtain ⟨u, p, k, sw, rec, au, nt, ct, mi, cn⟩ := cfg
      cases sw <;> cases rec <;> cases au <;> simp [handle_meeting_event, List.count_cons]
  · intro d1 d2 cfg h
    show (run_actions (handle_meeting_event "meeting_ended" d2 cfg)
        (run_actions (handle_meeting_event "meeting_ended" d1 cfg) h)).host_calls.count
          HostCall.recording_stop ≤ h.host_calls.count HostCall.recording_stop + 1
    have hdd : handle_meeting_event "meeting_ended" d2 cfg =
        handle_meeting_event "meeting_ended" d1 cfg := rfl
    rw [hdd]
    apply twice_count_stop_le
    · obtain ⟨u, p, k, sw, rec, au, nt, ct, mi, cn⟩ := cfg
      cases sw <;> cases rec <;> cases au <;> simp [handle_meeting_event]
    · obtain ⟨u, p, k, sw, rec, au, nt, ct, mi, cn⟩ := cfg
      cases sw <;> cases rec <;> cases au <;> simp [handle_meeting_event, List.count_cons]

/-- Witness for C10 at concrete hosts, events and the all-on configuration. -/
theorem recording_idempotent_witness :
    (host_recording.recording_active = true ∧
        exec_action HostAction.start_recording host_recording = host_recording) ∧
      (host_missing_scene.recording_active = false ∧
        exec_action HostAction.stop_recording host_missing_scene = host_missing_scene) ∧
      ((dispatch_event "meeting_started" Json.null cfg_all_on
          (dispatch_event "meeting_started" Json.null cfg_all_on
            host_missing_scene)).host_calls.count HostCall.recording_start ≤
        host_missing_scene.host_calls.count HostCall.recording_start + 1) ∧
      (dispatch_event "meeting_ended" Json.null cfg_all_on
          (dispatch_event "meeting_ended" Json.null cfg_all_on
            host_recording)).host_calls.count HostCall.recording_stop ≤
        host_recording.host_calls.count HostCall.recording_stop + 1 :=
  ⟨⟨rfl, recording_idempotent.1 host_recording rfl⟩,
    ⟨rfl, recording_idempotent.2.1 host_missing_scene rfl⟩,
    recording_idempotent.2.2.1 Json.null Json.null cfg_all_on host_missing_scene,
    recording_idempotent.2.2.2 Json.null Json.null cfg_all_on host_recording⟩

end MeetingMind
